import Mathlib

/-!
Verification of the Infisical PAM browser-query core: relay/gateway tunnel
establishment, the in-memory session credential store, query execution through
the gateway, the server WebSocket channel handlers, and the client reconnecting
WebSocket hook.  Definitions are shallow embeddings of the TypeScript sources;
theorems settle the specification claims about them.
-/

/-! ## JavaScript-level primitives used by the sources -/

/-- Value returned by a JavaScript function: either `undefined` (a function
body with no return statement) or a boolean. -/
inductive JSValue where
  | undef : JSValue
  | bool (b : Bool) : JSValue
deriving DecidableEq

/-- Digit run at the head of a character list, interpreted base 10; `none`
when the list does not start with a digit.  Helper for `parseIntJS10`. -/
def digitsValue (l : List Char) : Option Nat :=
  let ds := l.takeWhile Char.isDigit
  if ds.isEmpty then none
  else some (ds.foldl (fun acc c => acc * 10 + (c.toNat - ('0').toNat)) 0)

/-- Embedding of the JavaScript `parseInt(s, 10)` on a character list: skip
leading whitespace, accept an optional sign, then read the longest leading
digit run, ignoring any trailing characters; `none` models the `NaN` outcome
(no leading digits). -/
def parseIntJS10L (l : List Char) : Option Int :=
  match l.dropWhile (fun c => c = ' ' ∨ c = '\t' ∨ c = '\n' ∨ c = '\r') with
  | '-' :: rest => (digitsValue rest).map (fun n => -(n : Int))
  | '+' :: rest => (digitsValue rest).map (fun n => (n : Int))
  | rest => (digitsValue rest).map (fun n => (n : Int))

/-- JavaScript `parseInt(s, 10)` on a string. -/
def parseIntJS10 (s : String) : Option Int :=
  parseIntJS10L s.toList

/-- JavaScript `String.prototype.split` with a one-character separator, on the
character list of the string: always returns at least one part, and one more
part per separator occurrence. -/
def splitOnChar (sep : Char) : List Char → List (List Char)
  | [] => [[]]
  | c :: rest =>
    if c = sep then
      [] :: splitOnChar sep rest
    else
      match splitOnChar sep rest with
      | [] => [[c]]
      | h :: t => (c :: h) :: t

/-- Whether the character list `pre` is an initial segment of `l`. -/
def charsStartWith : List Char → List Char → Bool
  | [], _ => true
  | _ :: _, [] => false
  | a :: as, b :: bs => a = b && charsStartWith as bs

/-- Whether `needle` occurs contiguously inside `hay` (JavaScript
`String.prototype.includes`). -/
def charsHaveSub (needle : List Char) : List Char → Bool
  | [] => needle.isEmpty
  | c :: rest => charsStartWith needle (c :: rest) || charsHaveSub needle rest

/-- String containment test: `strIncludes hay needle` is true when `needle`
occurs contiguously in `hay`. -/
def strIncludes (hay needle : String) : Bool :=
  charsHaveSub needle.toList hay.toList

/-! ## RelayTunnelClient: `createRelayConnection` configuration phase
(src/backend/src/ee/services/pam-gateway/relay-connection-service.ts) -/

/-- Host part of the relay address: `parts[0]` of the colon split. -/
def relayHostName (relayHost : String) : List Char :=
  (splitOnChar ':' relayHost.toList).headD []

/-- Port segment of the relay address: `parts[1]` of the colon split. -/
def portSegment (relayHost : String) : List Char :=
  (splitOnChar ':' relayHost.toList).getD 1 []

/-- Address-parsing phase of `createRelayConnection`, executed before
`tls.connect` is invoked.  Mirrors: when `relayHost` contains a colon it is
split on colons, the host is the first part and the port is
`parseInt(parts[1], 10)`, throwing when that is `NaN`; otherwise the default
port 8443 is used.  The `Except.error` case models the thrown configuration
error, raised before any connection attempt. -/
def parseRelayHost (relayHost : String) : Except String (String × Int) :=
  if relayHost.toList.contains ':' then
    match parseIntJS10L (portSegment relayHost) with
    | none => .error ("Invalid port in relay host: " ++ relayHost)
    | some p => .ok (String.mk (relayHostName relayHost), p)
  else
    .ok (relayHost, 8443)

/-- Spec-side notion, written from the words of the specification: a string is
a valid integer when it is an optional sign followed by one or more decimal
digits and nothing else.  Used only to compare the specified behaviour with
the parsing the source actually performs. -/
def specValidIntegerString (s : String) : Bool :=
  match s.toList with
  | '-' :: rest => !rest.isEmpty && rest.all Char.isDigit
  | '+' :: rest => !rest.isEmpty && rest.all Char.isDigit
  | rest => !rest.isEmpty && rest.all Char.isDigit

/-! ## GatewayTunnelClient: `createGatewayConnection`
(src/backend/src/ee/services/pam-gateway/gateway-connection-service.ts) -/

/-- ALPN protocol tag for the PAM database proxy. -/
def ALPN_PAM_PROXY : String := "infisical-pam-proxy"

/-- Observable outcome of the inner mTLS handshake over the relay transport:
the authorization flag, the optional authorization-error message, and the
negotiated ALPN protocol (`none` models the JavaScript `false`, no protocol
negotiated). -/
structure GatewayHandshake where
  authorized : Bool
  authorizationError : Option String
  alpnProtocol : Option String
deriving DecidableEq

/-- Rendering of the actual protocol in the mismatch message: the source
interpolates `alpnProtocol || "none"`, so both a missing protocol and an
empty-string protocol print as `none`. -/
def alpnDisplay (alpn : Option String) : String :=
  match alpn with
  | some p => if p = "" then "none" else p
  | none => "none"

/-- The `secureConnect` verification in `createGatewayConnection`: first the
peer-authorization check, then the ALPN check against `ALPN_PAM_PROXY`; an
`Except.error` models rejecting the handshake promise with that message. -/
def gatewaySecureConnect (h : GatewayHandshake) : Except String Unit :=
  if !h.authorized then
    .error ("Gateway mTLS connection not authorized: "
      ++ (h.authorizationError.getD "Unknown error"))
  else if h.alpnProtocol ≠ some ALPN_PAM_PROXY then
    .error ("Gateway ALPN protocol mismatch: expected \x27" ++ ALPN_PAM_PROXY
      ++ "\x27, got \x27" ++ alpnDisplay h.alpnProtocol ++ "\x27")
  else
    .ok ()

/-- Result of `createGatewayConnection` as a function of the handshake
outcome: the established gateway socket (the tunnel handle) is returned only
when the `secureConnect` verification succeeds. -/
def createGatewayConnection (h : GatewayHandshake) : Except String GatewayHandshake :=
  match gatewaySecureConnect h with
  | .error e => .error e
  | .ok _ => .ok h

/-! ## Query execution through the gateway
(src/unnamed/part_000, `executeQueryThroughGateway`) -/

/-- Database credentials injected by the gateway during authentication. -/
structure TQueryCredentials where
  username : String
  password : String
  database : String
deriving DecidableEq

/-- Per-call query options; both fields optional. -/
structure TQueryOptions where
  maxRows : Option Nat := none
  timeout : Option Nat := none
deriving DecidableEq

/-- Field descriptor returned with a query result. -/
structure TQueryField where
  name : String
  dataType : Nat
deriving DecidableEq

/-- Formatted query result returned by `executeQueryThroughGateway`; rows are
opaque values (`unknown[]` in the source), so the row type is a parameter. -/
structure TQueryResult (α : Type) where
  rows : List α
  rowCount : Nat
  fields : List TQueryField
  executionTime : Nat
deriving DecidableEq

/-- Column descriptor as produced by the postgres driver. -/
structure PgColumn where
  name : String
  type : Nat
deriving DecidableEq

/-- Raw result of `sql.unsafe(query)`: the row list, the optional command
completion count (`result.count`, absent when undefined), and the optional
column list (`result.columns`, the source substitutes `[]` when absent). -/
structure RawPgResult (α : Type) where
  rows : List α
  count : Option Nat
  columns : Option (List PgColumn)
deriving DecidableEq

/-- Outcome of the awaited `sql.unsafe(query)` call: either a raw result and
the measured execution time, or a raised error with its message. -/
inductive PgOutcome (α : Type) where
  | success (result : RawPgResult α) (executionTime : Nat)
  | failure (message : String)
deriving DecidableEq

/-- Fields of the record passed to the error logger on a failed execution. -/
structure ExecErrorLog where
  database : String
  error : String
  queryPreview : String
deriving DecidableEq

/-- Observable outcome of one `executeQueryThroughGateway` call: the returned
value or raised error message, plus the error-log record when one is written. -/
structure ExecOutcome (α : Type) where
  result : Except String (TQueryResult α)
  errorLog : Option ExecErrorLog

/-- Embedding of `executeQueryThroughGateway` as a function of the query, the
credentials, the options and the driver outcome.  On success: `maxRows`
defaults to 1000, the returned rows are `result.slice(0, maxRows)`, the
reported row count is `result.count ?? result.length`, and the fields map the
driver columns.  On failure: the error log records the first 100 characters of
the query, and the raised error message wraps the cause message. -/
def executeQueryThroughGateway (query : String) (credentials : TQueryCredentials)
    (options : TQueryOptions) (outcome : PgOutcome α) : ExecOutcome α :=
  let maxRows := options.maxRows.getD 1000
  match outcome with
  | .success result executionTime =>
      let columns := result.columns.getD []
      let rowCount := result.count.getD result.rows.length
      { result := .ok
          { rows := result.rows.take maxRows
            rowCount := rowCount
            fields := columns.map (fun column =>
              { name := column.name, dataType := column.type })
            executionTime := executionTime }
        errorLog := none }
  | .failure message =>
      { result := .error ("Query execution failed: " ++ message)
        errorLog := some
          { database := credentials.database
            error := message
            queryPreview := String.mk (query.toList.take 100) } }

/-! ## SessionCredentialCache
(src/backend/src/ee/services/pam-session/pam-session-memory-store.ts) -/

/-- Session access data for browser-based PAM access. -/
structure TSessionAccessData where
  relayHost : String
  relayClientCert : String
  relayClientKey : String
  relayServerCertChain : String
  gatewayClientCert : String
  gatewayClientKey : String
  gatewayServerCertChain : String
  credentials : TQueryCredentials
deriving DecidableEq

/-- The private `Map<string, TSessionAccessData>` of the store, modelled as an
association list with at most one binding per key (maintained by the
operations below, which mirror JavaScript `Map` semantics). -/
abbrev SessionStore : Type := List (String × TSessionAccessData)

/-- Map lookup used by `get`. -/
def storeGet (s : SessionStore) (sessionId : String) : Option TSessionAccessData :=
  (s.find? (fun p => p.1 == sessionId)).map (fun p => p.2)

/-- Map membership used by `has` and by `Map.delete` for its return value. -/
def storeHas (s : SessionStore) (sessionId : String) : Bool :=
  s.any (fun p => p.1 == sessionId)

/-- Map insertion used by `set`: replaces an existing binding in place,
otherwise appends. -/
def storeSet (s : SessionStore) (sessionId : String) (d : TSessionAccessData) :
    SessionStore :=
  if storeHas s sessionId then
    s.map (fun p => if p.1 == sessionId then (sessionId, d) else p)
  else
    s ++ [(sessionId, d)]

/-- The underlying `Map.delete`: removes the binding and reports whether one
was present. -/
def storeDeleteRaw (s : SessionStore) (sessionId : String) : SessionStore × Bool :=
  (s.filter (fun p => p.1 != sessionId), storeHas s sessionId)

/-- Observable effect of one call to the store method `delete(sessionId)`: the
new map, the value the method returns to its caller, and whether the deletion
log line was emitted. -/
structure DeleteCall where
  store : SessionStore
  returned : JSValue
  logged : Bool

/-- Embedding of `SessionAccessDataStore.delete`: the method calls
`Map.delete`, logs only when that reported `true`, and — its body having no
return statement — returns `undefined` to the caller. -/
def SessionAccessDataStore.delete (s : SessionStore) (sessionId : String) : DeleteCall :=
  let r := storeDeleteRaw s sessionId
  { store := r.1, returned := JSValue.undef, logged := r.2 }

/-! ## Server WebSocket channel (src/unnamed/part_001, `registerPamSessionRouter`,
the `/:sessionId/ws` route handlers) -/

/-- Options object of an inbound WebSocket message before validation; numbers
are integers as carried by JSON. -/
structure RawWSOptions where
  maxRows : Option Int := none
  timeout : Option Int := none
deriving DecidableEq

/-- Inbound WebSocket message after JSON parsing but before schema
validation: a type tag with optional fields. -/
structure RawWSMessage where
  type : String
  query : Option String := none
  options : Option RawWSOptions := none
deriving DecidableEq

/-- Validated query request produced by the message schema. -/
structure ValidatedQuery where
  query : String
  options : TQueryOptions
deriving DecidableEq

/-- Bounds check for one optional numeric field of the message schema
(`z.number().min(lo).max(hi).optional()`). -/
def checkOptionalIntField (v : Option Int) (lo hi : Int) (small big : String) :
    Except String (Option Nat) :=
  match v with
  | none => .ok none
  | some x =>
    if x < lo then .error small
    else if x > hi then .error big
    else .ok (some x.toNat)

/-- Embedding of `WebSocketMessageSchema.parse`: the type must be the literal
`execute_query`, the query a string of length 1 to 10000, and the optional
options object may carry `maxRows` in 1 to 10000 and `timeout` in 1000 to
120000.  `Except.error` models the thrown validation error. -/
def webSocketMessageSchemaParse (m : RawWSMessage) : Except String ValidatedQuery :=
  if m.type ≠ "execute_query" then
    .error "invalid literal: expected execute_query"
  else
    match m.query with
    | none => .error "query: required"
    | some q =>
      if q.length < 1 then .error "query: too small"
      else if q.length > 10000 then .error "query: too big"
      else
        match m.options with
        | none => .ok { query := q, options := {} }
        | some o =>
          match checkOptionalIntField o.maxRows 1 10000
              "maxRows: too small" "maxRows: too big" with
          | .error e => .error e
          | .ok mr =>
            match checkOptionalIntField o.timeout 1000 120000
                "timeout: too small" "timeout: too big" with
            | .error e => .error e
            | .ok t => .ok { query := q, options := { maxRows := mr, timeout := t } }

/-- One JSON frame sent to the client over the WebSocket, as built by
`JSON.stringify` in the route: a type tag plus the optional payload fields. -/
structure SentFrame (α : Type) where
  type : String
  data : Option (TQueryResult α) := none
  message : Option String := none

/-- Observable effect of one invocation of the `message` event handler: the
frames sent to the client, whether the handler closed the socket, and the
error that escaped the async handler as an unhandled promise rejection, when
one did. -/
structure WSHandlerResult (α : Type) where
  sent : List (SentFrame α)
  socketClosed : Bool
  thrown : Option String

/-- Embedding of the `socket.on("message", ...)` handler of the
`/:sessionId/ws` route: parse and validate the message, execute the query
through the gateway, and send a `query_result` frame.  The handler contains no
try/catch and never closes the socket: a validation or execution error escapes
as an unhandled rejection with nothing sent.  The handler keeps no in-flight
state, so its behaviour does not depend on whether another query is still
executing. -/
def wsOnMessage (credentials : TQueryCredentials) (raw : RawWSMessage)
    (outcome : PgOutcome α) : WSHandlerResult α :=
  match webSocketMessageSchemaParse raw with
  | .error e => { sent := [], socketClosed := false, thrown := some e }
  | .ok v =>
    match (executeQueryThroughGateway v.query credentials v.options outcome).result with
    | .error e => { sent := [], socketClosed := false, thrown := some e }
    | .ok results =>
        { sent := [{ type := "query_result", data := some results }]
          socketClosed := false
          thrown := none }

/-- Transport legs of the nested tunnel. -/
inductive Leg where
  | gateway : Leg
  | relay : Leg
deriving DecidableEq

/-- Observable effect of the `socket.on("close", ...)` handler: the order in
which `.end()` was attempted on the legs, and the error that escaped the
handler when an `.end()` call threw. -/
structure CloseTrace where
  ended : List Leg
  thrown : Option String
deriving DecidableEq

/-- Embedding of the `close` event handler of the `/:sessionId/ws` route:
`if (gatewayConn) gatewayConn.end(); if (relayConn) relayConn.end();` with no
exception handling.  `gatewayConn`/`relayConn` are `none` when the connection
was never established; `endGateway`/`endRelay` give the behaviour of the
corresponding `.end()` call (an `Except.error` models a thrown error, which
then propagates out of the handler, skipping the rest of it). -/
def wsOnClose (gatewayConn relayConn : Option Unit)
    (endGateway endRelay : Except String Unit) : CloseTrace :=
  match gatewayConn with
  | some _ =>
    match endGateway with
    | .error e => { ended := [Leg.gateway], thrown := some e }
    | .ok _ =>
      match relayConn with
      | some _ =>
        match endRelay with
        | .error e => { ended := [Leg.gateway, Leg.relay], thrown := some e }
        | .ok _ => { ended := [Leg.gateway, Leg.relay], thrown := none }
      | none => { ended := [Leg.gateway], thrown := none }
  | none =>
    match relayConn with
    | some _ =>
      match endRelay with
      | .error e => { ended := [Leg.relay], thrown := some e }
      | .ok _ => { ended := [Leg.relay], thrown := none }
    | none => { ended := [], thrown := none }

/-! ## Client reconnecting channel (src/unnamed/part_002, `usePamWebSocket`) -/

/-- Connection status exposed by the hook. -/
inductive ConnectionStatus where
  | disconnected : ConnectionStatus
  | connecting : ConnectionStatus
  | connected : ConnectionStatus
  | reconnecting : ConnectionStatus
deriving DecidableEq

/-- Maximum number of scheduled reconnect attempts. -/
def MAX_RECONNECT_ATTEMPTS : Nat := 5

/-- Initial reconnect delay in milliseconds. -/
def INITIAL_RECONNECT_DELAY : Nat := 1000

/-- Reconnect delay cap in milliseconds. -/
def MAX_RECONNECT_DELAY : Nat := 30000

/-- Error payload stored in `lastError`. -/
structure WSErrorPayload where
  message : String
  code : Option String := none
deriving DecidableEq

/-- Server-to-client WebSocket message as parsed by the hook. -/
structure ClientWSMessage (α : Type) where
  type : String
  message : Option String := none
  data : Option (TQueryResult α) := none
  error : Option WSErrorPayload := none

/-- State kept by the hook: the React state values, the reconnect refs, and
whether the handler called `ws.close()`. -/
structure HookState (α : Type) where
  connectionStatus : ConnectionStatus
  lastResult : Option (TQueryResult α)
  lastError : Option WSErrorPayload
  isExecuting : Bool
  reconnectAttempts : Nat
  shouldReconnect : Bool
  closeRequested : Bool

/-- Embedding of the hook `ws.onopen` handler: status becomes connected and
the reconnect-attempt counter resets to zero. -/
def hookOnOpen (s : HookState α) : HookState α :=
  { s with connectionStatus := ConnectionStatus.connected, reconnectAttempts := 0 }

/-- Embedding of the hook `ws.onmessage` handler: the switch on the message
type.  `query_result` stores the payload (`message.data || null`) and clears
the error; `query_error` stores the error (`message.error` or the unknown
fallback) and clears the result; `session_expired` stores an error, disables
reconnection and closes the socket; unknown types only log a warning. -/
def hookOnMessage (s : HookState α) (m : ClientWSMessage α) : HookState α :=
  if m.type = "connected" then
    { s with connectionStatus := ConnectionStatus.connected }
  else if m.type = "query_result" then
    { s with lastResult := m.data, lastError := none, isExecuting := false }
  else if m.type = "query_error" then
    { s with lastError := some (m.error.getD { message := "Unknown error" })
             lastResult := none
             isExecuting := false }
  else if m.type = "session_expired" then
    { s with lastError := some { message := m.message.getD "Session expired" }
             isExecuting := false
             shouldReconnect := false
             closeRequested := true }
  else s

/-- Result of the hook `ws.onclose` handler: the status it leaves and the
reconnect delay it schedules, when it schedules one. -/
structure OnCloseResult where
  connectionStatus : ConnectionStatus
  scheduledDelay : Option Nat
deriving DecidableEq

/-- Embedding of the hook `ws.onclose` handler: the status is set to
disconnected; then, if reconnection is enabled and the attempt counter is
below `MAX_RECONNECT_ATTEMPTS`, the status becomes reconnecting and a
reconnect is scheduled after
`min(INITIAL_RECONNECT_DELAY * 2 ^ attempts, MAX_RECONNECT_DELAY)`
milliseconds; otherwise nothing is scheduled. -/
def hookOnClose (shouldReconnect : Bool) (reconnectAttempts : Nat) : OnCloseResult :=
  if shouldReconnect && reconnectAttempts < MAX_RECONNECT_ATTEMPTS then
    { connectionStatus := ConnectionStatus.reconnecting
      scheduledDelay := some (min (INITIAL_RECONNECT_DELAY * 2 ^ reconnectAttempts)
        MAX_RECONNECT_DELAY) }
  else
    { connectionStatus := ConnectionStatus.disconnected, scheduledDelay := none }

/-- Embedding of the scheduled reconnect timer body: it increments the
attempt counter and then calls `connect()`. -/
def reconnectTimerFire (s : HookState α) : HookState α :=
  { s with reconnectAttempts := s.reconnectAttempts + 1 }

/-! ## Concrete example values used by witnesses and counterexamples -/

/-- Example database credentials. -/
def exCreds : TQueryCredentials :=
  { username := "dbuser", password := "dbpass", database := "appdb" }

/-- Example session access bundle. -/
def exBundle : TSessionAccessData :=
  { relayHost := "relay.internal:8443"
    relayClientCert := "rc"
    relayClientKey := "rk"
    relayServerCertChain := "rchain"
    gatewayClientCert := "gc"
    gatewayClientKey := "gk"
    gatewayServerCertChain := "gchain"
    credentials := exCreds }

/-- Example raw driver result with one row. -/
def exRaw1 : RawPgResult Nat :=
  { rows := [7], count := some 1, columns := some [{ name := "one", type := 23 }] }

/-- Formatted result matching `exRaw1` under default options and time 2. -/
def exRes1 : TQueryResult Nat :=
  { rows := [7], rowCount := 1
    fields := [{ name := "one", dataType := 23 }], executionTime := 2 }

/-- Example raw driver result used by the busy-rejection scenario. -/
def exRaw2 : RawPgResult Nat :=
  { rows := [42], count := some 1, columns := some [{ name := "n", type := 23 }] }

/-- Formatted result matching `exRaw2` under default options and time 4. -/
def exRes2 : TQueryResult Nat :=
  { rows := [42], rowCount := 1
    fields := [{ name := "n", dataType := 23 }], executionTime := 4 }

/-- Example hook state holding the outcome of a previous failed query. -/
def exHook : HookState Nat :=
  { connectionStatus := ConnectionStatus.connected
    lastResult := none
    lastError := some { message := "previous error" }
    isExecuting := true
    reconnectAttempts := 0
    shouldReconnect := true
    closeRequested := false }

/-- Example authorized handshake with no negotiated ALPN protocol. -/
def exHandshake : GatewayHandshake :=
  { authorized := true, authorizationError := none, alpnProtocol := none }

/-- Example formatted result stored by the hook. -/
def exResHook : TQueryResult Nat :=
  { rows := [1], rowCount := 1, fields := [], executionTime := 3 }

/-! ## Helper lemmas -/

/-- Looking a key up after filtering out every pair with that key finds
nothing. -/
theorem storeGet_filter_ne (s : SessionStore) (sessionId : String) :
    storeGet (s.filter (fun p => p.1 != sessionId)) sessionId = none := by
  unfold storeGet
  have h : (s.filter (fun p => p.1 != sessionId)).find? (fun p => p.1 == sessionId)
      = none := by
    rw [List.find?_eq_none]
    intro x hx
    have hmem := List.mem_filter.mp hx
    simpa using hmem.2
  rw [h]
  rfl

/-! ## Claim theorems -/

/-- C3: for every successful query execution with row cap `maxRows`
(defaulting to 1000 when omitted), the returned row sequence has length
`min(actualRowCount, maxRows)` while the returned `rowCount` field equals the
untruncated actual row count.  The hypothesis states that the driver
completion count, when present, agrees with the length of the returned row
list — which is what the wire protocol guarantees for row-returning
statements and which makes the actual row count well defined. -/
theorem C3_rowcap_thm {α : Type} (query : String) (credentials : TQueryCredentials)
    (options : TQueryOptions) (result : RawPgResult α) (t : Nat)
    (hcount : result.count = none ∨ result.count = some result.rows.length) :
    ∃ res : TQueryResult α,
      (executeQueryThroughGateway query credentials options
        (.success result t)).result = .ok res
      ∧ res.rows.length = min res.rowCount (options.maxRows.getD 1000)
      ∧ res.rowCount = result.rows.length := by
  have hc : result.count.getD result.rows.length = result.rows.length := by
    rcases hcount with h | h <;> simp [h]
  refine ⟨_, rfl, ?_, ?_⟩
  · show (result.rows.take (options.maxRows.getD 1000)).length
      = min (result.count.getD result.rows.length) (options.maxRows.getD 1000)
    rw [hc, List.length_take, Nat.min_comm]
  · exact hc

/-- Witness for C3: three rows, cap 2 — two rows returned, row count 3. -/
theorem C3_rowcap_witness :
    ∃ res : TQueryResult Nat,
      (executeQueryThroughGateway "SELECT id FROM t" exCreds
        { maxRows := some 2 }
        (.success { rows := [10, 20, 30], count := some 3, columns := some [] }
          7)).result = .ok res
      ∧ res.rows.length = min res.rowCount 2
      ∧ res.rowCount = 3 := by
  have h := C3_rowcap_thm "SELECT id FROM t" exCreds { maxRows := some 2 }
    { rows := [10, 20, 30], count := some 3, columns := some [] } 7 (Or.inr rfl)
  exact h

/-- C4: with reconnection enabled, consecutive failed attempts numbered 0
through 4 schedule reconnects after `min(1000 * 2 ^ attempt, 30000)`
milliseconds, concretely 1000, 2000, 4000, 8000, 16000; once the attempt
counter has reached 5 the close handler schedules nothing and leaves the
status disconnected; and a successful open resets the attempt counter to
zero. -/
theorem C4_backoff_thm :
    (∀ n : Nat, n < 5 →
      (hookOnClose true n).scheduledDelay = some (min (1000 * 2 ^ n) 30000)
      ∧ (hookOnClose true n).connectionStatus = ConnectionStatus.reconnecting)
    ∧ ((hookOnClose true 0).scheduledDelay = some 1000
      ∧ (hookOnClose true 1).scheduledDelay = some 2000
      ∧ (hookOnClose true 2).scheduledDelay = some 4000
      ∧ (hookOnClose true 3).scheduledDelay = some 8000
      ∧ (hookOnClose true 4).scheduledDelay = some 16000)
    ∧ (∀ (sr : Bool) (n : Nat), 5 ≤ n →
      hookOnClose sr n = { connectionStatus := ConnectionStatus.disconnected
                           scheduledDelay := none })
    ∧ (∀ (α : Type) (s : HookState α),
      (hookOnOpen s).reconnectAttempts = 0
      ∧ (hookOnOpen s).connectionStatus = ConnectionStatus.connected) := by
  refine ⟨by decide, by decide, ?_, ?_⟩
  · intro sr n h
    have hn : ¬ n < MAX_RECONNECT_ATTEMPTS := by
      unfold MAX_RECONNECT_ATTEMPTS
      omega
    simp [hookOnClose, hn]
  · intro α s
    exact ⟨rfl, rfl⟩

/-- Witness for C4: the delay scheduled at attempt 3 and the terminal
behaviour at attempt 5. -/
theorem C4_backoff_witness :
    (hookOnClose true 3).scheduledDelay = some (min (1000 * 2 ^ 3) 30000)
    ∧ hookOnClose true 5 = { connectionStatus := ConnectionStatus.disconnected
                             scheduledDelay := none } :=
  ⟨(C4_backoff_thm.1 3 (by decide)).1, C4_backoff_thm.2.2.1 true 5 (by decide)⟩

/-- C5 counterexample: the port segment `12ab` is not a valid integer, yet
`createRelayConnection` does not fail with a configuration error — JavaScript
`parseInt` accepts the leading digits and the connection is attempted on port
12.  This falsifies the claim that a port segment that is not a valid integer
always produces a ConfigurationError. -/
theorem C5_port_counterexample :
    specValidIntegerString "12ab" = false
    ∧ parseRelayHost "db.example.com:12ab" = .ok ("db.example.com", 12) := by
  constructor
  · decide
  · rfl

/-- C5 amended: an address without a colon uses the default port 8443; an
address with a colon fails with the configuration error (before any
connection attempt) exactly when JavaScript `parseInt` of the port segment
yields `NaN`, i.e. when the segment has no leading integer — in particular
every nonempty all-digit segment parses; otherwise the `parseInt` value of
the segment (its leading integer, ignoring trailing characters) is used as
the port. -/
theorem C5_port_thm : ∀ relayHost : String,
    (relayHost.toList.contains ':' = false →
      parseRelayHost relayHost = .ok (relayHost, 8443))
    ∧ (relayHost.toList.contains ':' = true →
      parseIntJS10L (portSegment relayHost) = none →
      parseRelayHost relayHost
        = .error ("Invalid port in relay host: " ++ relayHost))
    ∧ (∀ p : Int, relayHost.toList.contains ':' = true →
      parseIntJS10L (portSegment relayHost) = some p →
      parseRelayHost relayHost = .ok (String.mk (relayHostName relayHost), p))
    ∧ (∀ l : List Char, l ≠ [] → l.all Char.isDigit = true →
      parseIntJS10L l ≠ none) := by
  intro relayHost
  refine ⟨?_, ?_, ?_, ?_⟩
  · intro h
    unfold parseRelayHost
    rw [h]
    simp
  · intro h hp
    unfold parseRelayHost
    rw [h, hp]
    simp
  · intro p h hp
    unfold parseRelayHost
    rw [h, hp]
    simp
  · intro l hne hall
    cases l with
    | nil => exact absurd rfl hne
    | cons c cs =>
      have hcd : c.isDigit = true := by
        simpa using (List.all_eq_true.mp hall c (List.mem_cons_self c cs))
      have hnws : ¬ (c = ' ' ∨ c = '\t' ∨ c = '\n' ∨ c = '\r') := by
        rintro (h | h | h | h) <;> rw [h] at hcd <;> simp at hcd
      have hdrop : (c :: cs).dropWhile
          (fun x => x = ' ' ∨ x = '\t' ∨ x = '\n' ∨ x = '\r') = c :: cs := by
        rw [List.dropWhile_cons]
        simp [hnws]
      have hdv : ∃ n, digitsValue (c :: cs) = some n := by
        unfold digitsValue
        rw [List.takeWhile_cons]
        simp [hcd]
      have hcm : c ≠ '-' := by
        intro h
        rw [h] at hcd
        simp at hcd
      have hcp : c ≠ '+' := by
        intro h
        rw [h] at hcd
        simp at hcd
      rcases hdv with ⟨n, hn⟩
      unfold parseIntJS10L
      rw [hdrop]
      split
      · rename_i rest heq
        injection heq with h1 h2
        exact absurd h1 hcm
      · rename_i rest heq
        injection heq with h1 h2
        exact absurd h1 hcp
      · simp [hn]

/-- Witness for C5: the default port, a failing empty segment, and a
successful numeric segment. -/
theorem C5_port_witness :
    parseRelayHost "relay.internal" = .ok ("relay.internal", 8443)
    ∧ parseRelayHost "relay.internal:"
        = .error "Invalid port in relay host: relay.internal:"
    ∧ parseRelayHost "relay.internal:9443" = .ok ("relay.internal", 9443) := by
  refine ⟨(C5_port_thm "relay.internal").1 (by decide), ?_, ?_⟩
  · have h := (C5_port_thm "relay.internal:").2.1 (by decide) (by decide)
    rw [h]
    rfl
  · have h := (C5_port_thm "relay.internal:9443").2.2.1 9443 (by decide) (by decide)
    rw [h]
    rfl

/-- C6 counterexample: on a failing execution the raised error message is the
wrapped cause message only — it does not include the first 100 characters of
the query text (that preview goes to the error log); and when the cause
message itself names the database user, the raised error does contain the
username.  Both falsify the claim about the raised error. -/
theorem C6_preview_counterexample :
    (executeQueryThroughGateway (α := Nat) "SELECT secret_value FROM vault_items"
        exCreds {} (.failure "syntax error at or near FROM")).result
      = .error "Query execution failed: syntax error at or near FROM"
    ∧ strIncludes "Query execution failed: syntax error at or near FROM"
        "SELECT secret_value FROM vault_items" = false
    ∧ (executeQueryThroughGateway (α := Nat) "SELECT 1"
        { username := "alice", password := "pw", database := "prod" } {}
        (.failure "password authentication failed for user alice")).result
      = .error "Query execution failed: password authentication failed for user alice"
    ∧ strIncludes
        "Query execution failed: password authentication failed for user alice"
        "alice" = true := by
  refine ⟨rfl, by decide, rfl, by decide⟩

/-- C6 amended: on every failing execution the raised error has exactly the
message `Query execution failed: ` followed by the cause message — it adds no
query text and no credential fields of its own (credential material can reach
it only through the cause message) — while the first 100 characters of the
query text are recorded as the preview in the error-log record, together with
the database name and the cause. -/
theorem C6_preview_thm : ∀ (α : Type) (query : String)
    (credentials : TQueryCredentials) (options : TQueryOptions) (message : String),
    executeQueryThroughGateway (α := α) query credentials options (.failure message)
      = { result := .error ("Query execution failed: " ++ message)
          errorLog := some { database := credentials.database
                             error := message
                             queryPreview := String.mk (query.toList.take 100) } } := by
  intro α query credentials options message
  rfl

/-- C7 counterexample: with a bundle present for the identifier, the store
method `delete` returns `undefined` — not the boolean `true` the claim
requires — even though a subsequent `get` does return absent. -/
theorem C7_delete_counterexample :
    storeHas (storeSet [] "sess-1" exBundle) "sess-1" = true
    ∧ (SessionAccessDataStore.delete (storeSet [] "sess-1" exBundle)
        "sess-1").returned = JSValue.undef
    ∧ JSValue.undef ≠ JSValue.bool true
    ∧ storeGet (SessionAccessDataStore.delete (storeSet [] "sess-1" exBundle)
        "sess-1").store "sess-1" = none := by
  refine ⟨rfl, rfl, by decide, rfl⟩

/-- C7 amended: `delete(id)` returns `undefined` (the method body has no
return statement); the underlying map removal reports presence — true exactly
when a bundle for the identifier was stored, observable as the deletion log
line — and after `delete(id)` a subsequent `get(id)` returns absent. -/
theorem C7_delete_thm : ∀ (s : SessionStore) (sessionId : String),
    (SessionAccessDataStore.delete s sessionId).returned = JSValue.undef
    ∧ (SessionAccessDataStore.delete s sessionId).logged = storeHas s sessionId
    ∧ storeGet (SessionAccessDataStore.delete s sessionId).store sessionId = none := by
  intro s sessionId
  exact ⟨rfl, rfl, storeGet_filter_ne s sessionId⟩

/-- C8: whenever the gateway mTLS handshake completes with an authorized peer
but the negotiated application protocol is not exactly `infisical-pam-proxy`
(including the case where none was negotiated), `createGatewayConnection`
fails with the protocol-mismatch error naming the expected and the actual
protocol, and no established gateway tunnel handle is returned. -/
theorem C8_alpn_thm : ∀ h : GatewayHandshake, h.authorized = true →
    h.alpnProtocol ≠ some ALPN_PAM_PROXY →
    createGatewayConnection h
      = .error ("Gateway ALPN protocol mismatch: expected \x27" ++ ALPN_PAM_PROXY
        ++ "\x27, got \x27" ++ alpnDisplay h.alpnProtocol ++ "\x27")
    ∧ ∀ g : GatewayHandshake, createGatewayConnection h ≠ .ok g := by
  intro h ha hne
  have hs : gatewaySecureConnect h
      = .error ("Gateway ALPN protocol mismatch: expected \x27" ++ ALPN_PAM_PROXY
        ++ "\x27, got \x27" ++ alpnDisplay h.alpnProtocol ++ "\x27") := by
    unfold gatewaySecureConnect
    rw [ha]
    simp [hne]
  constructor
  · unfold createGatewayConnection
    rw [hs]
  · intro g
    unfold createGatewayConnection
    rw [hs]
    simp

/-- Witness for C8: an authorized handshake with no negotiated protocol. -/
theorem C8_alpn_witness :
    createGatewayConnection exHandshake
      = .error "Gateway ALPN protocol mismatch: expected \x27infisical-pam-proxy\x27, got \x27none\x27" := by
  have h := (C8_alpn_thm exHandshake rfl (by decide)).1
  rw [h]
  rfl

/-- C9 counterexample: with both transports established, a failure thrown
while ending the gateway connection prevents any attempt to end the relay
connection and propagates out of the close handler — teardown is neither
exception-safe nor error-swallowing as claimed. -/
theorem C9_teardown_counterexample :
    Leg.relay ∉ (wsOnClose (some ()) (some ())
      (.error "gateway socket end failed") (.ok ())).ended
    ∧ (wsOnClose (some ()) (some ())
      (.error "gateway socket end failed") (.ok ())).thrown
        = some "gateway socket end failed" := by
  constructor
  · intro hmem
    simp [wsOnClose] at hmem
  · rfl

/-- C9 amended: the close handler always ends the gateway transport strictly
before the relay transport (the attempt order is a sublist of
gateway-then-relay, so the relay leg is never ended first); when both `end`
calls succeed both legs are ended in that order with nothing thrown; but the
handler has no exception handling — when ending the gateway leg throws, the
relay leg is never attempted and the error propagates out of the handler. -/
theorem C9_teardown_thm : ∀ (g r : Option Unit) (endG endR : Except String Unit),
    (wsOnClose g r endG endR).ended.Sublist [Leg.gateway, Leg.relay]
    ∧ (g = some () → r = some () → endG = .ok () → endR = .ok () →
      wsOnClose g r endG endR = { ended := [Leg.gateway, Leg.relay], thrown := none })
    ∧ (∀ e : String, g = some () → endG = .error e →
      wsOnClose g r endG endR = { ended := [Leg.gateway], thrown := some e }) := by
  intro g r endG endR
  refine ⟨?_, ?_, ?_⟩
  · cases g <;> cases r <;> cases endG <;> cases endR <;> simp [wsOnClose]
  · intro hg hr heg her
    subst hg; subst hr; subst heg; subst her
    rfl
  · intro e hg heg
    subst hg; subst heg
    cases r <;> rfl

/-- Witness for C9: both legs established, both `end` calls succeed. -/
theorem C9_teardown_witness :
    wsOnClose (some ()) (some ()) (.ok ()) (.ok ())
      = { ended := [Leg.gateway, Leg.relay], thrown := none } :=
  (C9_teardown_thm (some ()) (some ()) (.ok ()) (.ok ())).2.1 rfl rfl rfl rfl

/-- C10: in the client WebSocket hook, processing a `query_result` message
stores the payload in `lastResult` and clears `lastError`, and processing a
`query_error` message stores the error in `lastError` and clears
`lastResult`: each new query outcome clears the stored opposite outcome. -/
theorem C10_outcome_thm : ∀ (α : Type) (s : HookState α) (m : ClientWSMessage α),
    (m.type = "query_result" → hookOnMessage s m
      = { s with lastResult := m.data, lastError := none, isExecuting := false })
    ∧ (m.type = "query_error" → hookOnMessage s m
      = { s with lastError := some (m.error.getD { message := "Unknown error" })
                 lastResult := none
                 isExecuting := false }) := by
  intro α s m
  constructor <;> intro h <;> simp [hookOnMessage, h]

/-- Witness for C10: a result message arriving in a state still holding the
previous error clears it, and an error message clears a held result. -/
theorem C10_outcome_witness :
    hookOnMessage exHook { type := "query_result", data := some exResHook }
      = { exHook with lastResult := some exResHook, lastError := none
                      isExecuting := false }
    ∧ hookOnMessage exHook { type := "query_error" }
      = { exHook with lastError := some { message := "Unknown error" }
                      lastResult := none
                      isExecuting := false } :=
  ⟨(C10_outcome_thm Nat exHook { type := "query_result", data := some exResHook }).1 rfl,
   (C10_outcome_thm Nat exHook { type := "query_error" }).2 rfl⟩

/-- C1: evaluation of the server message handler at a valid query whose
execution fails.  The handler body has no try/catch: the execution error
escapes the async handler as an unhandled promise rejection, NO frame at all
is sent to the client — in particular no `query_error` frame — and the
socket is not closed.  The specification (and the client hook, which handles
a `query_error` message type the server never emits) clearly intends a
`query_error` response here, so this is a defect of the code, not of the
claim. -/
theorem C1_queryerror_thm :
    wsOnMessage (α := Nat) exCreds
      { type := "execute_query", query := some "SELECT * FROM missing_table" }
      (.failure "relation missing_table does not exist")
    = { sent := []
        socketClosed := false
        thrown := some "Query execution failed: relation missing_table does not exist" } := by
  rfl

/-- C2 counterexample: the route keeps no in-flight state whatsoever, so a
valid `execute_query` frame arriving while a previous query is still
executing is handled exactly like any other: it is executed and answered with
its own `query_result` frame — it is not rejected, and no `busy_error` frame
exists anywhere in the handler.  This falsifies the claim that such a message
is rejected with a BusyError response rather than interleaved. -/
theorem C2_busy_counterexample :
    (wsOnMessage (α := Nat) exCreds
      { type := "execute_query", query := some "SELECT 2" }
      (.success exRaw2 4)).sent
      = [{ type := "query_result", data := some exRes2 }]
    ∧ ((wsOnMessage (α := Nat) exCreds
      { type := "execute_query", query := some "SELECT 2" }
      (.success exRaw2 4)).sent.all (fun f => f.type != "busy_error")) = true := by
  exact ⟨rfl, rfl⟩

/-- C2 amended: the server message handler performs no busy tracking — every
frame it ever sends is a `query_result` frame (it never sends a BusyError, or
any error frame), and each validated query with a successful execution is
answered with its own result frame independently of any other in-flight
query, so the first query still completes and its result is delivered while
the second is executed concurrently rather than rejected. -/
theorem C2_busy_thm : ∀ (α : Type) (credentials : TQueryCredentials)
    (raw : RawWSMessage) (outcome : PgOutcome α),
    ((wsOnMessage credentials raw outcome).sent.all
      (fun f => f.type == "query_result") = true)
    ∧ (∀ (v : ValidatedQuery) (res : TQueryResult α),
      webSocketMessageSchemaParse raw = .ok v →
      (executeQueryThroughGateway v.query credentials v.options outcome).result
        = .ok res →
      (wsOnMessage credentials raw outcome).sent
        = [{ type := "query_result", data := some res }]) := by
  intro α credentials raw outcome
  constructor
  · unfold wsOnMessage
    split
    · rfl
    · split
      · rfl
      · rfl
  · intro v res hv hr
    unfold wsOnMessage
    rw [hv]
    dsimp only
    rw [hr]

/-- Witness for C2: a validated query with a one-row successful execution is
answered with its result frame. -/
theorem C2_busy_witness :
    (wsOnMessage (α := Nat) exCreds
      { type := "execute_query", query := some "SELECT 1" }
      (.success exRaw1 2)).sent
      = [{ type := "query_result", data := some exRes1 }] :=
  (C2_busy_thm Nat exCreds
    { type := "execute_query", query := some "SELECT 1" }
    (.success exRaw1 2)).2
    { query := "SELECT 1", options := {} } exRes1 rfl rfl
